import Mathlib

/-!
Verification of the face-tracking-app repository.

The repository is a browser face-tracking and recording page.  Its logic
lives in two near-duplicate React components, `src/src/app/page.js` and the
unnamed variant `src/unnamed/part_000` (which adds the expression tally).
This file shallowly embeds the parts of that code the claims are about:

* the dominant-expression selection of `handleVideoPlay`
  (`Object.keys(expressions).reduce((a, b) => expressions[a] > expressions[b] ? a : b)`),
* the expression tally store (`expressionCounts` / `resetExpressionCounts`),
* the per-tick tally update of the annotation loop,
* the annotation-loop tick concurrency (no busy guard on `detectAllFaces`),
* `startRecording` / `stopRecording` / the recorder handlers,
* `downloadVideo` in both variants, and
* the `startWebcam` failure classification.

JavaScript numbers in probability positions are modelled as rationals
(only order comparisons matter to the embedded logic); the browser
MediaRecorder / DOM environment is modelled by explicit state passing.
-/

/-- The fixed closed set of expression labels, in the canonical order the
face-api expression object carries its keys (also the initialization order
of `expressionCounts` in `part_000`):
neutral, happy, sad, angry, fearful, disgusted, surprised. -/
inductive Label where
  | neutral
  | happy
  | sad
  | angry
  | fearful
  | disgusted
  | surprised
deriving DecidableEq, Repr, Fintype

/-- The canonical key order of an expression-probability object:
the order `Object.keys(expressions)` yields in `handleVideoPlay`. -/
def expressionKeys : List Label :=
  [Label.neutral, Label.happy, Label.sad, Label.angry,
   Label.fearful, Label.disgusted, Label.surprised]

/-- Position of a label in the canonical key order. -/
def labelIdx : Label → Nat
  | Label.neutral => 0
  | Label.happy => 1
  | Label.sad => 2
  | Label.angry => 3
  | Label.fearful => 4
  | Label.disgusted => 5
  | Label.surprised => 6

/-- One step of the JavaScript reduce in `handleVideoPlay` (part_000 line 173):
`(a, b) => expressions[a] > expressions[b] ? a : b`. -/
def reduceStep (e : Label → ℚ) (a b : Label) : Label :=
  if e a > e b then a else b

/-- `Object.keys(expressions).reduce((a, b) => expressions[a] > expressions[b] ? a : b)`:
a reduce without initial value starts from the first key and folds the rest. -/
def dominantExpression (e : Label → ℚ) : Label :=
  match expressionKeys with
  | [] => Label.neutral
  | k :: ks => ks.foldl (reduceStep e) k

/-- The expression tally store: the `expressionCounts` state of `part_000`,
one non-negative count per label. -/
structure Counts where
  neutral : Nat
  happy : Nat
  sad : Nat
  angry : Nat
  fearful : Nat
  disgusted : Nat
  surprised : Nat
deriving DecidableEq, Repr

/-- Read one label count from the store. -/
def getCount (c : Counts) : Label → Nat
  | Label.neutral => c.neutral
  | Label.happy => c.happy
  | Label.sad => c.sad
  | Label.angry => c.angry
  | Label.fearful => c.fearful
  | Label.disgusted => c.disgusted
  | Label.surprised => c.surprised

/-- `newCounts[dominantExpression]++` on a spread copy of the previous
counts (part_000 lines 168 and 174). -/
def incrementCount (c : Counts) : Label → Counts
  | Label.neutral => { c with neutral := c.neutral + 1 }
  | Label.happy => { c with happy := c.happy + 1 }
  | Label.sad => { c with sad := c.sad + 1 }
  | Label.angry => { c with angry := c.angry + 1 }
  | Label.fearful => { c with fearful := c.fearful + 1 }
  | Label.disgusted => { c with disgusted := c.disgusted + 1 }
  | Label.surprised => { c with surprised := c.surprised + 1 }

/-- A sequence of `increment` operations applied to the store in order. -/
def applyIncrements (c : Counts) (ls : List Label) : Counts :=
  ls.foldl incrementCount c

/-- `resetExpressionCounts` (part_000 lines 315-319): replaces the store
with the all-zero literal, ignoring the prior state. -/
def resetExpressionCounts (_c : Counts) : Counts :=
  { neutral := 0, happy := 0, sad := 0, angry := 0,
    fearful := 0, disgusted := 0, surprised := 0 }

/-- Sum of all seven counts. -/
def totalCount (c : Counts) : Nat :=
  c.neutral + c.happy + c.sad + c.angry + c.fearful + c.disgusted + c.surprised

lemma getCount_incrementCount (c : Counts) (x l : Label) :
    getCount (incrementCount c x) l = getCount c l + if x = l then 1 else 0 := by
  cases x <;> cases l <;> simp [incrementCount, getCount]

lemma totalCount_incrementCount (c : Counts) (x : Label) :
    totalCount (incrementCount c x) = totalCount c + 1 := by
  cases x <;> simp [incrementCount, totalCount] <;> omega

lemma getCount_applyIncrements (ls : List Label) (c : Counts) (l : Label) :
    getCount (applyIncrements c ls) l = getCount c l + ls.count l := by
  induction ls generalizing c with
  | nil => simp [applyIncrements]
  | cons x xs ih =>
      have hx := getCount_incrementCount c x l
      simp only [applyIncrements, List.foldl_cons] at *
      rw [ih, hx, List.count_cons]
      by_cases h : x = l
      · simp [h]
        omega
      · have h2 : ¬ (l == x) = true := by
          simp only [beq_iff_eq]
          exact fun hc => h hc.symm
        simp [h, h2]

lemma totalCount_applyIncrements (ls : List Label) (c : Counts) :
    totalCount (applyIncrements c ls) = totalCount c + ls.length := by
  induction ls generalizing c with
  | nil => simp [applyIncrements]
  | cons x xs ih =>
      simp only [applyIncrements, List.foldl_cons] at *
      rw [ih, totalCount_incrementCount]
      simp [List.length_cons]
      omega

/-! ## Annotation loop: detections and the per-tick tally update -/

/-- One detected face as consumed by the tally update in `handleVideoPlay`:
only its expression-probability mapping matters there.  The `expressions`
field is optional because the source guards with `if (expressions)`. -/
structure Face where
  expressions : Option (Label → ℚ)

/-- The tally update of one annotation tick (part_000 lines 165-179):
if any faces were detected, for each face with an expressions mapping the
dominant expression is computed and its count incremented on a copy of the
previous counts. -/
def tickUpdateCounts (dets : List Face) (c : Counts) : Counts :=
  if dets.length > 0 then
    dets.foldl
      (fun acc f =>
        match f.expressions with
        | some e => incrementCount acc (dominantExpression e)
        | none => acc)
      c
  else c

/-- The dominant labels actually tallied for a detection list: one label
per face that carries an expressions mapping. -/
def domLabels (dets : List Face) : List Label :=
  dets.filterMap (fun f => f.expressions.map dominantExpression)

lemma tickUpdateCounts_eq_applyIncrements (dets : List Face) (c : Counts) :
    tickUpdateCounts dets c = applyIncrements c (domLabels dets) := by
  rw [tickUpdateCounts]
  by_cases h : dets.length > 0
  · rw [if_pos h]
    clear h
    induction dets generalizing c with
    | nil => simp [domLabels, applyIncrements]
    | cons f fs ih =>
        cases hf : f.expressions with
        | none => simp [domLabels, applyIncrements, List.foldl_cons, hf, ih,
            List.filterMap_cons]
        | some e => simp [domLabels, applyIncrements, List.foldl_cons, hf, ih,
            List.filterMap_cons]
  · rw [if_neg h]
    have h0 : dets = [] := List.length_eq_zero.mp (by omega)
    simp [h0, domLabels, applyIncrements]

lemma domLabels_length_of_all_some (dets : List Face)
    (h : ∀ f ∈ dets, f.expressions ≠ none) :
    (domLabels dets).length = dets.length := by
  induction dets with
  | nil => simp [domLabels]
  | cons f fs ih =>
      cases hf : f.expressions with
      | none => exact absurd hf (h f (List.mem_cons_self f fs))
      | some e =>
          have hrest := ih (fun g hg => h g (List.mem_cons_of_mem f hg))
          simp only [domLabels, List.filterMap_cons, hf, Option.map_some] at *
          simp [hrest]

/-- State of the annotation loop around one playing video: how many
`detectAllFaces` calls are currently in flight (started but not resolved),
whether the repeating interval is still scheduled, the tally store, and the
video element's flags which the tick inspects. -/
structure LoopState where
  pending : Nat
  intervalActive : Bool
  counts : Counts
  paused : Bool
  ended : Bool
deriving DecidableEq, Repr

/-- Events of the single-threaded event loop driving `handleVideoPlay`:
an interval callback firing, or a `detectAllFaces` promise resolving with
its detections (whose continuation draws and updates the tally). -/
inductive LoopEvent where
  | tick
  | complete (dets : List Face)

/-- One event-loop step of the annotation cycle, translated from the
`setInterval` callback (part_000 lines 139-185).  The callback is `async`:
on a tick with the video neither paused nor ended it draws the mirrored
frame and *starts* `detectAllFaces` — the interval keeps firing while that
promise is pending, and the source contains no busy check.  When a
detection resolves, its continuation draws the annotations and applies the
tally update.  On a tick with the video paused or ended the callback
clears the interval. -/
def loopStep (s : LoopState) : LoopEvent → LoopState
  | LoopEvent.tick =>
      if s.intervalActive then
        if ¬s.paused ∧ ¬s.ended then
          { s with pending := s.pending + 1 }
        else
          { s with intervalActive := false }
      else s
  | LoopEvent.complete dets =>
      { s with pending := s.pending - 1, counts := tickUpdateCounts dets s.counts }

/-- Initial loop state: interval just installed, video playing, no call in
flight. -/
def loopInit : LoopState :=
  { pending := 0, intervalActive := true,
    counts := resetExpressionCounts ⟨0, 0, 0, 0, 0, 0, 0⟩,
    paused := false, ended := false }

/-! ## Recording pipeline

Platform model of the browser MediaRecorder API, per its standard
interface: `MediaRecorder.isTypeSupported` is an arbitrary support
predicate; the constructor consumes the MIME type from its options bag
(a `timeslice` property in the options is not part of the recorder
options and is ignored); the flush cadence is governed solely by the
optional timeslice argument of `start()` — with no argument, a
`dataavailable` event fires only on `stop()` or `requestData()`. -/

/-- Lifecycle state of one MediaRecorder object. -/
inductive RecState where
  | inactive
  | recording
  | stopped
deriving DecidableEq, Repr

/-- The options object literal built by `startRecording`
(page.js line 205): `{ mimeType: supportedMimeType, timeslice: 2000 }`. -/
structure RecorderOptions where
  mimeType : String
  timeslice : Nat
deriving DecidableEq, Repr

/-- One MediaRecorder object: its negotiated MIME type, lifecycle state,
and the timeslice argument its `start()` was invoked with (if any) —
the only source of a periodic flush in the platform model. -/
structure Recorder where
  mime : String
  rstate : RecState
  startedTimeslice : Option Nat
deriving DecidableEq, Repr

/-- `new MediaRecorder(stream, options)`: the constructor reads the MIME
type; an extraneous `timeslice` key in the options bag is ignored by the
platform, and the recorder starts out inactive. -/
def mediaRecorderNew (opts : RecorderOptions) : Recorder :=
  { mime := opts.mimeType, rstate := RecState.inactive, startedTimeslice := none }

/-- `recorder.start(timeslice?)`: enters the recording state; the
timeslice argument (absent in the source, which calls `recorder.start()`)
fixes the flush interval. -/
def mediaRecorderStart (r : Recorder) (timeslice : Option Nat) : Recorder :=
  { r with rstate := RecState.recording, startedTimeslice := timeslice }

/-- One encoded data segment delivered by a `dataavailable` event;
`size` is its byte size, `tag` distinguishes segments. -/
structure Segment where
  size : Nat
  tag : Nat
deriving DecidableEq, Repr

/-- `new Blob(chunks, { type })`: the assembled artifact. -/
structure BlobV where
  parts : List Segment
  btype : String
deriving DecidableEq, Repr

/-- `supportedMimeType.split(';')[0]`: the container type the blob is
tagged with. -/
def containerType (mime : String) : String :=
  (mime.splitOn ";").headD ""

/-- Component state touched by the recording pipeline and download code.
`recorders` is the heap of MediaRecorder objects constructed so far (the
timeout and stop closures hold them by reference); `mediaRecorder` is the
index of the one stored in the `mediaRecorder` React state; `chunks` is
`recordedChunksRef.current`, shared by every recorder's `ondataavailable`;
`videoUrl` is the assembled artifact reference (`none` models the empty
string). -/
structure AppState where
  haveVideo : Bool
  haveCanvas : Bool
  isCameraReady : Bool
  recorders : List Recorder
  mediaRecorder : Option Nat
  recording : Bool
  chunks : List Segment
  videoUrl : Option BlobV
  error : String
deriving DecidableEq, Repr

/-- The precondition guard of `startRecording` (page.js line 173):
`!videoRef.current || !canvasRef.current || !isCameraReady` negated. -/
def recReady (s : AppState) : Bool :=
  s.haveVideo && s.haveCanvas && s.isCameraReady

/-- The fixed codec priority list of `startRecording` (page.js lines 182-189). -/
def possibleMimeTypes : List String :=
  ["video/webm; codecs=vp9,opus",
   "video/webm; codecs=vp8,opus",
   "video/webm; codecs=vp9",
   "video/webm; codecs=vp8",
   "video/webm",
   "video/mp4; codecs=avc1"]

/-- The `for...of` loop with `break` over the priority list: the first
entry `MediaRecorder.isTypeSupported` accepts, if any. -/
def negotiateMime (support : String → Bool) : List String → Option String
  | [] => none
  | t :: ts => if support t then some t else negotiateMime support ts

/-- Error message set when the precondition guard fails. -/
def notReadyMsg : String :=
  "Camera not ready or models not loaded. Please ensure camera access and models are loaded."

/-- Error message set when no MIME type in the priority list is supported. -/
def unsupportedCodecMsg : String :=
  "Your browser does not support any common video recording codecs. Try updating your browser or using a different one."

/-- Error message set by the `onstop` handler when no data was captured. -/
def noDataMsg : String :=
  "Recording stopped, but no video data was captured. This might be due to codec issues or camera not providing data."

/-- `recorder.ondataavailable` (page.js lines 218-225): a non-empty chunk
is pushed onto the shared `recordedChunksRef`; an empty chunk is ignored. -/
def ondataHandler (d : Segment) (s : AppState) : AppState :=
  if d.size > 0 then { s with chunks := s.chunks ++ [d] } else s

/-- `recorder.onstop` (page.js lines 232-247), a closure over the
negotiated MIME type: if chunks were accumulated, assemble them into a
blob tagged with the container type and store its object URL; otherwise
set the no-data error and clear the URL.  Either way the shared chunk
buffer is emptied afterwards. -/
def onstopHandler (mime : String) (s : AppState) : AppState :=
  if s.chunks.length > 0 then
    { s with videoUrl := some { parts := s.chunks, btype := containerType mime },
             chunks := [] }
  else
    { s with error := noDataMsg, videoUrl := none, chunks := [] }

/-- `startRecording` (page.js lines 172-259), together with its 200ms
stabilization timeout.  After the precondition guard and codec
negotiation it constructs a recorder from the options literal, clears the
shared chunk buffer, and registers the handlers; the timeout then starts
the recorder — its guard `recorder.state === 'inactive'` examines the
freshly constructed recorder, which is always inactive — and publishes it
as the current `mediaRecorder`, sets `recording`, and clears `videoUrl`.
No check of an already-active session occurs anywhere on this path. -/
def startRecordingFull (support : String → Bool) (s : AppState) : AppState :=
  if recReady s then
    match negotiateMime support possibleMimeTypes with
    | none => { s with error := unsupportedCodecMsg }
    | some t =>
        let r := mediaRecorderNew { mimeType := t, timeslice := 2000 }
        let rStarted :=
          if r.rstate = RecState.inactive then mediaRecorderStart r none else r
        { s with recorders := s.recorders ++ [rStarted],
                 chunks := [],
                 mediaRecorder := some s.recorders.length,
                 recording := true,
                 videoUrl := none }
  else { s with error := notReadyMsg }

/-- `recorder.stop()` on the recorder object: enters the stopped state,
which fires the `onstop` handler. -/
def mediaRecorderStop (r : Recorder) : Recorder :=
  { r with rstate := RecState.stopped }

/-- `stopRecording` (page.js lines 262-268): only when a `mediaRecorder`
is stored and `recording` is set does it stop that recorder (firing its
`onstop` handler, a closure over that recorder's MIME type) and clear the
recording flag.  Only the most recently published recorder is stopped. -/
def stopRecording (s : AppState) : AppState :=
  match s.mediaRecorder with
  | some idx =>
      if s.recording then
        match s.recorders[idx]? with
        | some r =>
            let s1 := { s with recorders := s.recorders.set idx (mediaRecorderStop r),
                               recording := false }
            onstopHandler r.mime s1
        | none => s
      else s
  | none => s

/-- One full recording session run from an arbitrary prior state:
`startRecording`, then the data events the recorder delivers, then
`stopRecording`. -/
def runSession (support : String → Bool) (s : AppState) (ds : List Segment) :
    AppState :=
  stopRecording (ds.foldl (fun st d => ondataHandler d st) (startRecordingFull support s))

/-- Recorders currently in the recording state: concurrently active
recording sessions. -/
def countActive (s : AppState) : Nat :=
  (s.recorders.filter (fun r => r.rstate = RecState.recording)).length

/-! ## Capture source: webcam failure classification -/

/-- The failure shapes of `navigator.mediaDevices.getUserMedia` the catch
block of `startWebcam` distinguishes by `err.name`, with the error message
carried along for the generic branch. -/
inductive WebcamErr where
  | notAllowed
  | notFound
  | notReadable
  | other (msg : String)
deriving DecidableEq, Repr

/-- The human-readable cause message chosen by the if-chain of
`startWebcam` (page.js lines 65-73). -/
def webcamFailureMessage : WebcamErr → String
  | WebcamErr.notAllowed =>
      "Camera access denied. Please enable camera permissions in your browser settings."
  | WebcamErr.notFound =>
      "No camera found. Please ensure a camera is connected and working."
  | WebcamErr.notReadable =>
      "Camera is already in use or not accessible. Please close other applications using the camera."
  | WebcamErr.other msg => "Failed to access webcam: " ++ msg ++ "."

/-- Camera-related component state: readiness flag, the permission status
string (one of the code's vocabulary `unknown`, `prompt`, `granted`,
`denied`), and the latest error message. -/
structure CamState where
  isCameraReady : Bool
  cameraPermissionStatus : String
  error : String
deriving DecidableEq, Repr

/-- The catch block of `startWebcam` (page.js lines 61-74): every failure,
of any classification, clears readiness, sets the permission status to
`denied`, and stores the classified message. -/
def startWebcamFailure (e : WebcamErr) (s : CamState) : CamState :=
  { s with isCameraReady := false,
           cameraPermissionStatus := "denied",
           error := webcamFailureMessage e }

/-! ## Download -/

/-- Observable DOM effects of `downloadVideo`: a programmatic click on an
anchor with a `download` filename (the browser-level save-as action), and
`URL.revokeObjectURL` releasing the artifact's memory handle.  The anchor
href is the object URL, modelled by the blob it names. -/
inductive DomAction where
  | anchorClick (href : BlobV) (filename : String)
  | revokeObjectURL (href : BlobV)
deriving DecidableEq, Repr

/-- `downloadVideo` in `src/unnamed/part_000` (lines 322-334): when an
artifact URL exists, an anchor named
`face-tracking-video-` + `Date.now()` + `.webm` is created, appended,
clicked, removed; then the URL is revoked and the reference cleared. -/
def downloadVideoPart000 (now : Nat) (s : AppState) : List DomAction × AppState :=
  match s.videoUrl with
  | some url =>
      ([DomAction.anchorClick url ("face-tracking-video-" ++ toString now ++ ".webm"),
        DomAction.revokeObjectURL url],
       { s with videoUrl := none })
  | none => ([], s)

/-- `downloadVideo` in `src/src/app/page.js` (lines 271-282): when an
artifact URL exists, the anchor is created with the same generated
filename, appended and immediately removed — `a.click()` is never called,
so no save-as action fires — and the URL is nonetheless revoked and the
reference cleared. -/
def downloadVideoPage (_now : Nat) (s : AppState) : List DomAction × AppState :=
  match s.videoUrl with
  | some url =>
      ([DomAction.revokeObjectURL url],
       { s with videoUrl := none })
  | none => ([], s)

/-! ## Concrete states used by witnesses and counterexamples -/

/-- The all-zero tally store. -/
def counts0 : Counts :=
  { neutral := 0, happy := 0, sad := 0, angry := 0,
    fearful := 0, disgusted := 0, surprised := 0 }

/-- A ready idle component state: camera ready, nothing recorded yet. -/
def appState0 : AppState :=
  { haveVideo := true, haveCanvas := true, isCameraReady := true,
    recorders := [], mediaRecorder := none, recording := false,
    chunks := [], videoUrl := none, error := "" }

/-- A support predicate accepting every MIME type. -/
def supportAll : String → Bool := fun _ => true

/-- A face whose expression mapping peaks at `happy`. -/
def faceHappy : Face :=
  { expressions := some (fun l => if l = Label.happy then 1 else 0) }

/-- An expression mapping with `neutral` and `happy` tied at the maximum. -/
def exTie : Label → ℚ
  | Label.neutral => 1
  | Label.happy => 1
  | _ => 0

/-- An expression mapping whose unique maximum is `neutral`. -/
def exSingle : Label → ℚ :=
  fun l => if l = Label.neutral then 1 else 0

/-! ## C2: tally store increments and reset -/

/-- C2: for every sequence of increment operations applied to the
expression tally store from any starting state, each label's final count
equals its starting count plus the number of increments of that label;
and reset sets all seven labels' counts to 0 regardless of prior state. -/
theorem c2_tally_increments_and_reset :
    (∀ (start : Counts) (ls : List Label) (l : Label),
        getCount (applyIncrements start ls) l = getCount start l + ls.count l) ∧
    (∀ (c : Counts) (l : Label), getCount (resetExpressionCounts c) l = 0) := by
  constructor
  · intro start ls l
    exact getCount_applyIncrements ls start l
  · intro c l
    cases l <;> rfl

/-! ## C8: one tally increment per detected face per poll cycle -/

/-- C8: on a poll cycle whose detection result is `dets`, every detected
face (each carrying an expressions mapping) causes exactly one tally
increment, to its dominant-expression label, so each label gains the
number of faces dominated by it and the total number of increments equals
the number of detected faces. -/
theorem c8_one_increment_per_face (dets : List Face) (c : Counts)
    (h : ∀ f ∈ dets, f.expressions ≠ none) :
    (∀ l, getCount (tickUpdateCounts dets c) l =
        getCount c l + (domLabels dets).count l) ∧
    totalCount (tickUpdateCounts dets c) = totalCount c + dets.length := by
  constructor
  · intro l
    rw [tickUpdateCounts_eq_applyIncrements]
    exact getCount_applyIncrements _ _ _
  · rw [tickUpdateCounts_eq_applyIncrements, totalCount_applyIncrements,
        domLabels_length_of_all_some dets h]

/-- Witness for C8 at a one-face detection list over the zero store. -/
theorem c8_one_increment_per_face_witness :
    (∀ f ∈ [faceHappy], f.expressions ≠ none) ∧
    ((∀ l, getCount (tickUpdateCounts [faceHappy] counts0) l =
        getCount counts0 l + (domLabels [faceHappy]).count l) ∧
      totalCount (tickUpdateCounts [faceHappy] counts0) =
        totalCount counts0 + [faceHappy].length) := by
  have h : ∀ f ∈ [faceHappy], f.expressions ≠ none := by
    intro f hf
    rw [List.mem_singleton] at hf
    subst hf
    simp [faceHappy]
  exact ⟨h, c8_one_increment_per_face [faceHappy] counts0 h⟩

/-! ## C9: overlapping inference calls -/

/-- C9 counterexample: from the freshly installed loop on a playing video,
two interval ticks firing before the first detection resolves leave two
inference calls in flight — the claimed bound of at most one in-flight
call is violated. -/
theorem c9_counterexample_two_in_flight :
    (loopStep (loopStep loopInit LoopEvent.tick) LoopEvent.tick).pending = 2 ∧
    ¬ (loopStep (loopStep loopInit LoopEvent.tick) LoopEvent.tick).pending ≤ 1 := by
  decide

/-- C9 (amended): an interval tick firing while the video is neither
paused nor ended always starts another inference call, regardless of how
many are already pending — the source has no skip-if-busy guard, so
in-flight inference calls can stack without bound. -/
theorem c9_tick_always_starts_inference (s : LoopState)
    (hact : s.intervalActive = true) (hp : s.paused = false)
    (he : s.ended = false) :
    (loopStep s LoopEvent.tick).pending = s.pending + 1 := by
  simp [loopStep, hact, hp, he]

/-- Witness for C9's amended theorem at the initial loop state. -/
theorem c9_tick_always_starts_inference_witness :
    loopInit.intervalActive = true ∧ loopInit.paused = false ∧
    loopInit.ended = false ∧
    (loopStep loopInit LoopEvent.tick).pending = loopInit.pending + 1 :=
  ⟨rfl, rfl, rfl, c9_tick_always_starts_inference loopInit rfl rfl rfl⟩

/-! ## C7: webcam failure classification -/

/-- A granted camera state, about to suffer a failure on re-request. -/
def camState0 : CamState :=
  { isCameraReady := true, cameraPermissionStatus := "granted", error := "" }

/-- C7 counterexample: a device-not-found failure sets the permission
state to `denied`, not to an `errored` state as the claim requires for a
device fault. -/
theorem c7_counterexample_notfound_denied :
    (startWebcamFailure WebcamErr.notFound camState0).cameraPermissionStatus
        = "denied" ∧
    (startWebcamFailure WebcamErr.notFound camState0).cameraPermissionStatus
        ≠ "errored" := by
  decide

/-- C7 (amended): every camera-access failure is classified into one of
the four classes with its own human-readable cause message (the generic
class embeds the underlying error text behind a fixed prefix), but the
capture state is set to `denied` uniformly — device faults included; the
code has no `errored` state. -/
theorem c7_failure_classification :
    (∀ (e : WebcamErr) (s : CamState),
        (startWebcamFailure e s).cameraPermissionStatus = "denied" ∧
        (startWebcamFailure e s).isCameraReady = false ∧
        (startWebcamFailure e s).error = webcamFailureMessage e) ∧
    List.Pairwise (fun a b => a ≠ b)
      [webcamFailureMessage WebcamErr.notAllowed,
       webcamFailureMessage WebcamErr.notFound,
       webcamFailureMessage WebcamErr.notReadable,
       webcamFailureMessage (WebcamErr.other "device hung up")] := by
  constructor
  · intro e s
    exact ⟨rfl, rfl, rfl⟩
  · decide

/-! ## C6: download behaviour of the two variants -/

/-- A one-segment assembled artifact. -/
def blobDemo : BlobV := { parts := [{ size := 3, tag := 0 }], btype := "video/webm" }

/-- A component state holding an assembled artifact. -/
def dlState : AppState := { appState0 with videoUrl := some blobDemo }

/-- C6 (code bug): with an assembled artifact present, the `page.js`
variant of `downloadVideo` performs no anchor click — no browser-level
save-as action fires — yet still revokes the object URL and clears the
artifact reference; the `part_000` variant clicks the anchor with the
generated `face-tracking-video-` timestamp `.webm` filename before
revoking and clearing. -/
theorem c6_page_download_never_clicks :
    (downloadVideoPage 5 dlState).1 = [DomAction.revokeObjectURL blobDemo] ∧
    (downloadVideoPage 5 dlState).2.videoUrl = none ∧
    (downloadVideoPart000 5 dlState).1 =
      [DomAction.anchorClick blobDemo "face-tracking-video-5.webm",
       DomAction.revokeObjectURL blobDemo] ∧
    (downloadVideoPart000 5 dlState).2.videoUrl = none := by
  decide

/-! ## C4: no bounded flush interval reaches the recorder -/

/-- C4 (code bug): the recorder started by `startRecording` carries no
flush timeslice.  The source writes `timeslice: 2000` into the
constructor options — where the platform recorder ignores it — and then
calls `recorder.start()` with no timeslice argument, so no 2-second
periodic flush is configured and data is delivered only on stop. -/
theorem c4_recorder_started_without_timeslice :
    (startRecordingFull supportAll appState0).recorders.map
        (fun r => r.startedTimeslice) = [none] ∧
    (startRecordingFull supportAll appState0).recorders.map
        (fun r => r.rstate) = [RecState.recording] ∧
    (mediaRecorderNew { mimeType := "video/webm; codecs=vp9,opus",
                        timeslice := 2000 }).startedTimeslice = none := by
  decide

/-! ## C1: dominant-expression selection -/

set_option maxHeartbeats 2000000

lemma dominant_attains_max (e : Label → ℚ) (l : Label) :
    e l ≤ e (dominantExpression e) := by
  cases l <;>
    (simp only [dominantExpression, expressionKeys, List.foldl_cons,
       List.foldl_nil, reduceStep]
     split_ifs <;> linarith)

lemma dominant_is_last_argmax (e : Label → ℚ) (l : Label) :
    labelIdx (dominantExpression e) < labelIdx l →
    e l < e (dominantExpression e) := by
  cases l <;>
    (simp only [dominantExpression, expressionKeys, List.foldl_cons,
       List.foldl_nil, reduceStep]
     split_ifs <;> simp [labelIdx] <;> linarith)

set_option maxHeartbeats 200000

/-- C1 counterexample: with `neutral` and `happy` tied for the maximum
probability, the selection returns `happy` — the later label in the
canonical order — not the earlier label `neutral` the claim requires. -/
theorem c1_counterexample_tie_picks_later :
    exTie Label.neutral = exTie Label.happy ∧
    (∀ l, exTie l ≤ exTie Label.neutral) ∧
    dominantExpression exTie = Label.happy ∧
    Label.happy ≠ Label.neutral := by
  decide

/-- C1 (amended): dominant-expression selection returns a label attaining
the maximum probability; when two or more labels tie for the maximum it
returns the latest such label in the canonical order
neutral, happy, sad, angry, fearful, disgusted, surprised — the reduce
keeps the incumbent only on strictly greater probability, so every label
strictly after the selected one is strictly below the maximum. -/
theorem c1_dominant_selection (e : Label → ℚ) (l : Label) :
    e l ≤ e (dominantExpression e) ∧
    (labelIdx (dominantExpression e) < labelIdx l →
      e l < e (dominantExpression e)) :=
  ⟨dominant_attains_max e l, dominant_is_last_argmax e l⟩

/-- Witness for C1's amended theorem: a unique maximum at `neutral` is
selected, and the strictly-later label `happy` is strictly below it. -/
theorem c1_dominant_selection_witness :
    exSingle Label.happy ≤ exSingle (dominantExpression exSingle) ∧
    labelIdx (dominantExpression exSingle) < labelIdx Label.happy ∧
    exSingle Label.happy < exSingle (dominantExpression exSingle) :=
  ⟨(c1_dominant_selection exSingle Label.happy).1, by decide,
   (c1_dominant_selection exSingle Label.happy).2 (by decide)⟩

/-! ## C3: no single-active-session enforcement in startRecording -/

/-- C3 counterexample: from a ready idle state, invoking `startRecording`
twice in succession without an intervening `stopRecording` leaves two
recorders concurrently in the recording state — the second invocation is
neither rejected nor a no-op. -/
theorem c3_counterexample_two_active_recorders :
    countActive (startRecordingFull supportAll
        (startRecordingFull supportAll appState0)) = 2 ∧
    ¬ countActive (startRecordingFull supportAll
        (startRecordingFull supportAll appState0)) ≤ 1 := by
  decide

/-- C3 (amended): `startRecording` makes no active-session check — every
invocation that passes the readiness guard and codec negotiation
constructs and starts one more recorder, so the number of concurrently
active recording sessions grows by one each time, active session or not
(the UI disables the start button while `recording` is set, but the
function itself never rejects). -/
theorem c3_start_always_adds_session (support : String → Bool) (s : AppState)
    (hready : recReady s = true)
    (hsup : ∃ t, negotiateMime support possibleMimeTypes = some t) :
    countActive (startRecordingFull support s) = countActive s + 1 := by
  obtain ⟨t, ht⟩ := hsup
  simp [startRecordingFull, hready, ht, countActive, mediaRecorderNew,
    mediaRecorderStart, List.filter_append]

/-- Witness for C3's amended theorem at the ready idle state. -/
theorem c3_start_always_adds_session_witness :
    recReady appState0 = true ∧
    (∃ t, negotiateMime supportAll possibleMimeTypes = some t) ∧
    countActive (startRecordingFull supportAll appState0) =
      countActive appState0 + 1 :=
  ⟨by decide, ⟨"video/webm; codecs=vp9,opus", by decide⟩,
   c3_start_always_adds_session supportAll appState0 (by decide)
     ⟨"video/webm; codecs=vp9,opus", by decide⟩⟩

/-! ## C5: codec negotiation -/

lemma negotiateMime_spec (support : String → Bool) :
    ∀ (L : List String) (t : String), negotiateMime support L = some t →
      support t = true ∧
      ∃ l1 l2, L = l1 ++ t :: l2 ∧ ∀ u ∈ l1, support u = false := by
  intro L
  induction L with
  | nil =>
      intro t h
      simp [negotiateMime] at h
  | cons x xs ih =>
      intro t h
      rw [negotiateMime] at h
      by_cases hx : support x = true
      · rw [if_pos hx] at h
        have hxt : x = t := by injection h
        subst hxt
        exact ⟨hx, [], xs, rfl, by intro u hu; simp at hu⟩
      · rw [if_neg hx] at h
        obtain ⟨hs, l1, l2, hL, hall⟩ := ih t h
        refine ⟨hs, x :: l1, l2, by rw [hL]; rfl, ?_⟩
        intro u hu
        rcases List.mem_cons.mp hu with rfl | hu2
        · simpa using hx
        · exact hall u hu2

/-- C5: `startRecording` selects as recording MIME type the first entry
of the fixed priority list that the runtime support predicate accepts —
the constructed and started recorder carries exactly that type, and every
earlier entry is unsupported; when no entry is supported, it sets the
unsupported-codec error and changes nothing else: no recorder and no
session come into being. -/
theorem c5_codec_negotiation (support : String → Bool) (s : AppState)
    (hready : recReady s = true) :
    (∀ t, negotiateMime support possibleMimeTypes = some t →
        support t = true ∧
        (∃ l1 l2, possibleMimeTypes = l1 ++ t :: l2 ∧
          ∀ u ∈ l1, support u = false) ∧
        (startRecordingFull support s).recorders =
          s.recorders ++
            [{ mime := t, rstate := RecState.recording,
               startedTimeslice := none }]) ∧
    (negotiateMime support possibleMimeTypes = none →
        startRecordingFull support s = { s with error := unsupportedCodecMsg }) := by
  constructor
  · intro t ht
    obtain ⟨hs, hsplit⟩ := negotiateMime_spec support possibleMimeTypes t ht
    refine ⟨hs, hsplit, ?_⟩
    simp [startRecordingFull, hready, ht, mediaRecorderNew, mediaRecorderStart]
  · intro hn
    simp [startRecordingFull, hready, hn]

/-- A support predicate accepting only the bare `video/webm` container:
the first four priority entries are refused. -/
def supportWebmOnly : String → Bool := fun u => u == "video/webm"

/-- Witness for C5 under a predicate that accepts only `video/webm`. -/
theorem c5_codec_negotiation_witness :
    recReady appState0 = true ∧
    ((∀ t, negotiateMime supportWebmOnly possibleMimeTypes = some t →
        supportWebmOnly t = true ∧
        (∃ l1 l2, possibleMimeTypes = l1 ++ t :: l2 ∧
          ∀ u ∈ l1, supportWebmOnly u = false) ∧
        (startRecordingFull supportWebmOnly appState0).recorders =
          appState0.recorders ++
            [{ mime := t, rstate := RecState.recording,
               startedTimeslice := none }]) ∧
     (negotiateMime supportWebmOnly possibleMimeTypes = none →
        startRecordingFull supportWebmOnly appState0 =
          { appState0 with error := unsupportedCodecMsg })) :=
  ⟨by decide, c5_codec_negotiation supportWebmOnly appState0 (by decide)⟩

/-! ## C10: segment buffer lifecycle across a session -/

/-- The non-empty segments among a delivery sequence: exactly those the
`ondataavailable` handler appends. -/
def nonEmptySegs (ds : List Segment) : List Segment :=
  ds.filter (fun d => decide (0 < d.size))

lemma foldl_ondata (ds : List Segment) (s : AppState) :
    ds.foldl (fun st d => ondataHandler d st) s =
      { s with chunks := s.chunks ++ nonEmptySegs ds } := by
  induction ds generalizing s with
  | nil => simp [nonEmptySegs]
  | cons d ds ih =>
      rw [List.foldl_cons, ih, ondataHandler]
      by_cases h : 0 < d.size
      · simp [h, nonEmptySegs, List.filter_cons]
      · simp [h, nonEmptySegs, List.filter_cons]

/-- C10: for any session run from any prior state — `startRecording`,
then the delivered data events, then `stopRecording` — the segment buffer
is empty right after the recorder is constructed and started, and empty
again after on-stop handling on both the artifact-assembled and the
no-data branch; the assembled artifact consists of exactly this session's
non-empty segments, so no segment of an earlier session can appear in it. -/
theorem c10_segment_buffer_lifecycle (support : String → Bool) (s : AppState)
    (t : String) (ds : List Segment)
    (hready : recReady s = true)
    (ht : negotiateMime support possibleMimeTypes = some t) :
    (startRecordingFull support s).chunks = [] ∧
    (runSession support s ds).chunks = [] ∧
    (runSession support s ds).videoUrl =
      (if nonEmptySegs ds = [] then none
       else some { parts := nonEmptySegs ds, btype := containerType t }) := by
  have hs1 : startRecordingFull support s =
      { s with
        recorders := s.recorders ++
          [{ mime := t, rstate := RecState.recording, startedTimeslice := none }],
        chunks := [],
        mediaRecorder := some s.recorders.length,
        recording := true,
        videoUrl := none } := by
    simp [startRecordingFull, hready, ht, mediaRecorderNew, mediaRecorderStart]
  refine ⟨by rw [hs1], ?_⟩
  have h2 : ds.foldl (fun st d => ondataHandler d st)
        (startRecordingFull support s) =
      { s with
        recorders := s.recorders ++
          [{ mime := t, rstate := RecState.recording, startedTimeslice := none }],
        chunks := nonEmptySegs ds,
        mediaRecorder := some s.recorders.length,
        recording := true,
        videoUrl := none } := by
    rw [hs1, foldl_ondata]
    simp
  simp only [runSession]
  rw [h2]
  rw [stopRecording]
  simp only [List.getElem?_concat_length]
  by_cases hf : nonEmptySegs ds = []
  · simp [onstopHandler, hf]
  · have hlen : 0 < (nonEmptySegs ds).length := List.length_pos.mpr hf
    simp [onstopHandler, hf, hlen]

/-- The two-segment delivery sequence used by the C10 witness. -/
def dsDemo : List Segment := [{ size := 3, tag := 0 }, { size := 0, tag := 1 }]

/-- Witness for C10: a session over the ready idle state delivering one
non-empty and one empty segment. -/
theorem c10_segment_buffer_lifecycle_witness :
    recReady appState0 = true ∧
    negotiateMime supportAll possibleMimeTypes =
      some "video/webm; codecs=vp9,opus" ∧
    ((startRecordingFull supportAll appState0).chunks = [] ∧
     (runSession supportAll appState0 dsDemo).chunks = [] ∧
     (runSession supportAll appState0 dsDemo).videoUrl =
       (if nonEmptySegs dsDemo = [] then none
        else some { parts := nonEmptySegs dsDemo,
                    btype := containerType "video/webm; codecs=vp9,opus" })) :=
  ⟨by decide, by decide,
   c10_segment_buffer_lifecycle supportAll appState0
     "video/webm; codecs=vp9,opus" dsDemo (by decide) (by decide)⟩
